import Mathlib

/-!
Verification of the meeting-summarizer backend (src/unnamed/part_000, the
canonical server; src/server.js agrees on the branch logic) and of the
frontend edit cycle (src/frontend/pages/index.js).

JavaScript values are modelled by the inductive `JVal`; JS truthiness,
property access with optional chaining, and `||` defaulting are embedded
explicitly.  Numbers are modelled as integers (no claim involves floats).
-/

namespace MeetingSummarizer

/-- Model of a JavaScript runtime value as it flows through the server:
`undefined` is `undefined`, `obj` is a plain object as an ordered field list. -/
inductive JVal where
  | undefined
  | null
  | bool (b : Bool)
  | num (n : Int)
  | str (s : String)
  | arr (elems : List JVal)
  | obj (fields : List (String × JVal))

/-- JS truthiness: `undefined`, `null`, `false`, `0` and `""` are falsy;
every array and object is truthy. -/
def truthy : JVal → Bool
  | .undefined => false
  | .null => false
  | .bool b => b
  | .num n => !(n == 0)
  | .str s => !(s == "")
  | .arr _ => true
  | .obj _ => true

/-- JS `x || y`: the left operand when truthy, otherwise the right. -/
def jsOr (x y : JVal) : JVal := if truthy x then x else y

/-- Lookup of a property in an object's field list; absent fields read as
`undefined`, exactly as in JS. -/
def findField : List (String × JVal) → String → JVal
  | [], _ => .undefined
  | (k, v) :: rest, key => if k == key then v else findField rest key

/-- JS optional-chained property access `v?.key`: `undefined` unless `v` is
an object that carries the field. -/
def getField : JVal → String → JVal
  | .obj fs, key => findField fs key
  | _, _ => .undefined

/-- Model of `Array.isArray`. -/
def isArr : JVal → Bool
  | .arr _ => true
  | _ => false

/-- The element list of an array value, `[]` for every non-array. -/
def asArr : JVal → List JVal
  | .arr xs => xs
  | _ => []

def isUndefined : JVal → Bool
  | .undefined => true
  | _ => false

/-- The per-element mapping applied by `ensureSummaryShape` to each entry of
`action_items` (src/unnamed/part_000 lines 61-65):
owner defaults to "Unassigned", task and due default to "". -/
def mapAction (a : JVal) : JVal :=
  .obj [("owner", jsOr (getField a "owner") (.str "Unassigned")),
        ("task", jsOr (getField a "task") (.str "")),
        ("due", jsOr (getField a "due") (.str ""))]

/-- Embedding of `ensureSummaryShape` (src/unnamed/part_000 lines 57-67):
keep `points` and `decisions` when they are arrays, else substitute `[]`;
map `action_items` elementwise through the owner/task/due defaulting, else
substitute `[]`. -/
def ensureSummaryShape (v : JVal) : JVal :=
  .obj [("points", if isArr (getField v "points") then getField v "points" else .arr []),
        ("decisions", if isArr (getField v "decisions") then getField v "decisions" else .arr []),
        ("action_items",
          match getField v "action_items" with
          | .arr items => .arr (items.map mapAction)
          | _ => .arr [])]

/-- An action-item record in the sense of the spec: an object carrying the
fields `owner`, `task` and `due`. -/
def isActionRec : JVal → Bool
  | .obj fs =>
      !(isUndefined (findField fs "owner")) &&
      !(isUndefined (findField fs "task")) &&
      !(isUndefined (findField fs "due"))
  | _ => false

def isStrV : JVal → Bool
  | .str _ => true
  | _ => false

/-- The well-formedness predicate claimed for normalizer outputs: all three
fields present, each an array, with string elements in `points` and
`decisions` and owner/task/due records in `action_items`. -/
def wellFormedSummary (v : JVal) : Bool :=
  match v with
  | .obj fs =>
      (match findField fs "points" with
       | .arr ps => ps.all isStrV
       | _ => false) &&
      (match findField fs "decisions" with
       | .arr ds => ds.all isStrV
       | _ => false) &&
      (match findField fs "action_items" with
       | .arr items => items.all isActionRec
       | _ => false)
  | _ => false

/-- The shape that `ensureSummaryShape` actually guarantees: exactly the
three fields, in order, each an array, and every `action_items` element an
owner/task/due record.  Element types of `points` and `decisions` are not
constrained because the code passes those arrays through unchecked. -/
def shapedSummary (v : JVal) : Bool :=
  match v with
  | .obj [(k1, .arr _), (k2, .arr _), (k3, .arr items)] =>
      (k1 == "points") && (k2 == "decisions") && (k3 == "action_items") &&
      items.all isActionRec
  | _ => false

/-- JS `\s` whitespace: ASCII whitespace plus the Unicode space separators,
line separators and BOM matched by the regexes in the server. -/
def jsSpace (c : Char) : Bool :=
  c == ' ' || c == '\t' || c == '\n' || c == '\r' || c == '\x0b' || c == '\x0c' ||
  c == ' ' || c == ' ' ||
  (decide (0x2000 ≤ c.val) && decide (c.val ≤ 0x200a)) ||
  c == ' ' || c == ' ' || c == ' ' || c == ' ' ||
  c == '　' || c == '﻿'

/-- The sentence-ending punctuation class of the transcript-splitting regex. -/
def sentencePunct (c : Char) : Bool := c == '.' || c == '?' || c == '!'

/-- Length of the leftmost match of the separator regex at the head of the
character list, if any.  This embeds the JS regex used at
src/unnamed/part_000 line 80: an optional carriage return followed by a
newline, or a sentence-ending punctuation mark followed by one or more
whitespace characters (greedy). -/
def sepLen : List Char → Option Nat
  | '\r' :: '\n' :: _ => some 2
  | '\n' :: _ => some 1
  | c :: rest =>
      if sentencePunct c then
        match (rest.takeWhile jsSpace).length with
        | 0 => none
        | n + 1 => some (n + 2)
      else none
  | [] => none

/-- Regex split driver: scans left to right, cutting a fragment at every
separator match, exactly as `String.prototype.split` with a regex.  The
fuel argument is the remaining character count; every step consumes at
least one character, so fuel equal to the input length never runs out. -/
def splitGo : Nat → List Char → List Char → List (List Char)
  | _, [], acc => [acc.reverse]
  | 0, cs, acc => [acc.reverse ++ cs]
  | fuel + 1, c :: rest, acc =>
      match sepLen (c :: rest) with
      | some n => acc.reverse :: splitGo fuel ((c :: rest).drop n) []
      | none => splitGo fuel rest (c :: acc)

/-- The transcript split used by the mock branch. -/
def splitTranscript (s : String) : List String :=
  (splitGo s.data.length s.data []).map String.mk

/-- JS `String.prototype.trim`: strip `\s` characters from both ends. -/
def trimChars (cs : List Char) : List Char :=
  ((cs.dropWhile jsSpace).reverse.dropWhile jsSpace).reverse

def jsTrim (s : String) : String := String.mk (trimChars s.data)

/-- String conversion of a scalar JS value, as in template literals and
`String(...)`. -/
def jsToStrScalar : JVal → String
  | .undefined => "undefined"
  | .null => "null"
  | .bool true => "true"
  | .bool false => "false"
  | .num n => toString n
  | .str s => s
  | .arr _ => ""
  | .obj _ => "[object Object]"

/-- Conversion to string as performed by JS template literals and
`String(...)` on the values this server handles.  Arrays convert by joining
their elements with commas, null and undefined elements reading as empty;
the conversion of an array nested inside an array is truncated (host
behavior would recurse), which no theorem below depends on. -/
def jsToStr : JVal → String
  | .arr xs =>
      String.intercalate ","
        (xs.map fun v =>
          match v with
          | .undefined => ""
          | .null => ""
          | w => jsToStrScalar w)
  | v => jsToStrScalar v

/-- JS `toLowerCase` on the ASCII configuration strings involved, mapped
characterwise. -/
def jsToLower (s : String) : String := String.mk (s.data.map Char.toLower)

/-- Embedding of `parseBool` (src/unnamed/part_000 lines 48-51): undefined,
null or empty input yields the default, otherwise membership of the
lowercased string in true/1/yes. -/
def parseBool (val : Option String) (d : Bool) : Bool :=
  match val with
  | none => d
  | some s => if s == "" then d else ["true", "1", "yes"].contains (jsToLower s)

/-- The environment configuration read at startup: the USE_MOCK variable and
the GROQ_API_KEY credential, each possibly unset. -/
structure Env where
  useMockVar : Option String
  groqKey : Option String

/-- USE_MOCK as computed at src/unnamed/part_000 line 53 (default true). -/
def mockFlag (e : Env) : Bool := parseBool e.useMockVar true

/-- HAS_GROQ, `Boolean(process.env.GROQ_API_KEY)` (line 54): false exactly
when the credential is unset or the empty string.  The `groq` client is
constructed iff this holds, so `!groq` below is its negation. -/
def hasGroq (e : Env) : Bool :=
  match e.groqKey with
  | none => false
  | some s => !(s == "")

/-- The fragment pipeline of the mock branch (lines 79-82): split, trim each
fragment, keep the truthy (non-empty) ones. -/
def mockLines (t : String) : List String :=
  ((splitTranscript t).map jsTrim).filter (fun s => !(s == ""))

/-- The slice bound `slice(0, 6)` of the mock branch. -/
def mockN : Nat := 6

/-- The summary produced by the mock branch (lines 84-91): first `mockN`
fragments as points, a fixed decision, two fixed action items, all pushed
through `ensureSummaryShape`. -/
def mockSummary (t : String) : JVal :=
  ensureSummaryShape (.obj [
    ("points", .arr (((mockLines t).take mockN).map JVal.str)),
    ("decisions", .arr [.str "Proceed with current timeline."]),
    ("action_items", .arr [
      .obj [("owner", .str "John"), ("task", .str "Finish API integration"),
            ("due", .str "Friday")],
      .obj [("owner", .str "Sarah"), ("task", .str "Design frontend UI"),
            ("due", .str "Wednesday")]])])

/-- Outcome of the generate-summary handler up to the external LLM call:
validation failure, a fully computed mock response, or dispatch to the
Groq-backed path (whose network interaction is outside the embedding). -/
inductive GenResult where
  | invalid
  | mockResp (summary : JVal)
  | llmCall

def isMockResp : GenResult → Bool
  | .mockResp _ => true
  | _ => false

def isLLMCall : GenResult → Bool
  | .llmCall => true
  | _ => false

/-- Control flow of `POST /generate-summary` (src/unnamed/part_000 lines
70-94): read transcript and instruction from `req.body || {}`, reject when
either is falsy, take the mock branch when `USE_MOCK || !groq`, otherwise
call the LLM. -/
def genHandler (e : Env) (body : JVal) : GenResult :=
  if !truthy (getField (jsOr body (.obj [])) "transcript") ||
     !truthy (getField (jsOr body (.obj [])) "instruction") then
    .invalid
  else if mockFlag e || !hasGroq e then
    .mockResp (mockSummary (jsToStr (getField (jsOr body (.obj [])) "transcript")))
  else
    .llmCall

/-- HTTP status and JSON body produced for the outcomes decided locally;
the LLM path's response depends on the external call and is not embedded. -/
def genResponse : GenResult → Option (Nat × JVal)
  | .invalid => some (400, .obj [("error", .str "Transcript and instruction are required")])
  | .mockResp s => some (200, .obj [("summary", s)])
  | .llmCall => none

/-- Truthiness of `v.length` as tested by `!recipients.length`
(src/unnamed/part_000 line 139): nonempty for arrays and strings, the
`length` field for plain objects, falsy for everything else. -/
def jsLengthTruthy : JVal → Bool
  | .arr xs => !xs.isEmpty
  | .str s => !(s == "")
  | .obj fs => truthy (findField fs "length")
  | _ => false

def renderLi (v : JVal) : String := "<li>" ++ jsToStr v ++ "</li>"

/-- One action-item line of the email body (line 149). -/
def renderAction (a : JVal) : String :=
  "<li><strong>" ++ jsToStr (getField a "owner") ++ "</strong>: " ++
  jsToStr (getField a "task") ++ " — <em>" ++ jsToStr (getField a "due") ++ "</em></li>"

/-- The HTML fragment built by `POST /send-summary` (lines 143-153) from a
normalized summary: points as bullets, decisions and action items as
conditional sections. -/
def renderSummaryHTML (summary : JVal) : String :=
  let bullets := String.join ((asArr (getField summary "points")).map renderLi)
  let decisionsHTML :=
    if (asArr (getField summary "decisions")).isEmpty then ""
    else "<h4>Decisions</h4><ul>" ++
         String.join ((asArr (getField summary "decisions")).map renderLi) ++ "</ul>"
  let actionsHTML :=
    if (asArr (getField summary "action_items")).isEmpty then ""
    else "<h4>Action Items</h4><ul>" ++
         String.join ((asArr (getField summary "action_items")).map renderAction) ++ "</ul>"
  "<h2>Meeting Summary</h2><h4>Key Points</h4><ul>" ++ bullets ++ "</ul>" ++
    decisionsHTML ++ actionsHTML

/-- Outcome of the send-summary handler up to the external mail call:
validation failure, or a dispatch to the mail collaborator with the chosen
recipients value and the rendered HTML. -/
inductive SendResult where
  | invalid
  | send (recipients : JVal) (html : String)

def isSend : SendResult → Bool
  | .send _ _ => true
  | _ => false

/-- Control flow of `POST /send-summary` (src/unnamed/part_000 lines
133-156): default the summary to `{}` and the recipients to `[]`, normalize
the summary, reject when `recipients.length` is falsy, otherwise render the
email and hand it to the mail collaborator.  The normalization happens
before the validation in the source but has no effect, so the order here is
immaterial. -/
def sendHandler (body : JVal) : SendResult :=
  if !jsLengthTruthy (jsOr (getField body "recipients") (.arr [])) then
    .invalid
  else
    .send (jsOr (getField body "recipients") (.arr []))
      (renderSummaryHTML (ensureSummaryShape (jsOr (getField body "summary") (.obj []))))

/-- HTTP status and JSON body of the send-summary handler, given the preview
locator the mail collaborator yields on success. -/
def sendResponse (r : SendResult) (url : String) : Nat × JVal :=
  match r with
  | .invalid => (400, .obj [("error", .str "Recipients array is required")])
  | .send _ _ => (200, .obj [("message", .str "Email sent (preview available)"),
                             ("previewUrl", .str url)])

/-- Prepend a character to the first fragment of a fragment list. -/
def consHead (c : Char) : List (List Char) → List (List Char)
  | [] => [[c]]
  | h :: t => (c :: h) :: t

/-- Split of a character list at every newline, as `String.prototype.split`
with separator string containing a single newline. -/
def splitNLAux : List Char → List (List Char)
  | [] => [[]]
  | c :: rest =>
      if c = '\n' then [] :: splitNLAux rest
      else consHead c (splitNLAux rest)

/-- JS `s.split("\n")` (src/frontend/pages/index.js line 168). -/
def splitLinesJS (s : String) : List String :=
  (splitNLAux s.data).map String.mk

/-- JS `arr.join("\n")` as used by `toLines` (index.js lines 26-27). -/
def joinNLChars : List (List Char) → List Char
  | [] => []
  | [p] => p
  | p :: ps => p ++ '\n' :: joinNLChars ps

def joinLinesJS (ps : List String) : String :=
  String.mk (joinNLChars (ps.map String.data))

/-- The points textarea `onChange` pipeline (index.js line 168): split the
edited text at newlines, trim each line, drop blank lines. -/
def editPoints (s : String) : List String :=
  ((splitLinesJS s).map jsTrim).filter (fun x => !(x == ""))

/-- Full edit cycle: render the points to the textarea with `toLines`, then
re-parse the unmodified text back into a points list. -/
def editCycle (ps : List String) : List String :=
  editPoints (joinLinesJS ps)

/-- Trimming and blank-entry removal, the equivalence the round-trip claim
allows. -/
def modTrimBlank (ps : List String) : List String :=
  (ps.map jsTrim).filter (fun x => !(x == ""))

/-! ## Helper lemmas about the normalizer -/

theorem keep_arr (x : JVal) :
    (if isArr x then x else JVal.arr []) = .arr (asArr x) := by
  cases x <;> rfl

theorem keep_actions (x : JVal) :
    (match x with
     | .arr items => JVal.arr (items.map mapAction)
     | _ => .arr []) = .arr ((asArr x).map mapAction) := by
  cases x <;> rfl

/-- The normalizer written with the array coercions factored out. -/
theorem ensureSummaryShape_eq (v : JVal) :
    ensureSummaryShape v =
      .obj [("points", .arr (asArr (getField v "points"))),
            ("decisions", .arr (asArr (getField v "decisions"))),
            ("action_items", .arr ((asArr (getField v "action_items")).map mapAction))] := by
  unfold ensureSummaryShape
  rw [keep_arr, keep_arr, keep_actions]

theorem jsOr_absorb (x d : JVal) : jsOr (jsOr x d) d = jsOr x d := by
  unfold jsOr
  cases hx : truthy x <;> simp [hx]

theorem mapAction_idem (a : JVal) : mapAction (mapAction a) = mapAction a := by
  show JVal.obj
    [("owner", jsOr (jsOr (getField a "owner") (.str "Unassigned")) (.str "Unassigned")),
     ("task", jsOr (jsOr (getField a "task") (.str "")) (.str "")),
     ("due", jsOr (jsOr (getField a "due") (.str "")) (.str ""))] = mapAction a
  simp only [jsOr_absorb]
  rfl

theorem truthy_not_undef (x : JVal) (h : truthy x = true) : isUndefined x = false := by
  cases x <;> simp_all [truthy, isUndefined]

theorem isUndef_jsOr_str (x : JVal) (s : String) :
    isUndefined (jsOr x (.str s)) = false := by
  unfold jsOr
  cases hx : truthy x
  · simp [isUndefined]
  · simp [truthy_not_undef x hx]

theorem isActionRec_mapAction (a : JVal) : isActionRec (mapAction a) = true := by
  show (!(isUndefined (jsOr (getField a "owner") (.str "Unassigned"))) &&
        !(isUndefined (jsOr (getField a "task") (.str ""))) &&
        !(isUndefined (jsOr (getField a "due") (.str "")))) = true
  simp [isUndef_jsOr_str]

theorem shapedSummary_ensure (v : JVal) :
    shapedSummary (ensureSummaryShape v) = true := by
  rw [ensureSummaryShape_eq]
  show ((asArr (getField v "action_items")).map mapAction).all isActionRec = true
  apply List.all_eq_true.mpr
  intro x hx
  obtain ⟨a, _, rfl⟩ := List.mem_map.mp hx
  exact isActionRec_mapAction a

/-! ## Claims about the normalizer -/

/-- C1 (counterexample): the claim that normalizer outputs always have
string elements in `points` fails — the code keeps an arbitrary input
array unchecked, so an input whose `points` array holds the number 42
yields an output violating the claimed element typing. -/
theorem spec_C1_cex :
    wellFormedSummary (ensureSummaryShape (.obj [("points", .arr [.num 42])])) = false := by
  rfl

/-- C1 (amended): the normalizer is total and, for every input value
(null, strings and wrong-typed fields included), returns a record with
exactly the fields points, decisions and action_items, each of them a
sequence, and every action_items element a record carrying owner, task and
due; the elements of points and decisions are the input's array elements
passed through unchecked, so they need not be strings. -/
theorem spec_C1 (v : JVal) : shapedSummary (ensureSummaryShape v) = true :=
  shapedSummary_ensure v

/-- C5: if the input's action_items field is a sequence, the normalizer
maps each element to owner-or-"Unassigned", task-or-"", due-or-""; if it
is not a sequence, the empty sequence is substituted. -/
theorem spec_C5 (v : JVal) :
    (∀ xs, getField v "action_items" = .arr xs →
      getField (ensureSummaryShape v) "action_items" =
        .arr (xs.map fun a =>
          .obj [("owner", if truthy (getField a "owner") then getField a "owner"
                          else .str "Unassigned"),
                ("task", if truthy (getField a "task") then getField a "task"
                         else .str ""),
                ("due", if truthy (getField a "due") then getField a "due"
                        else .str "")])) ∧
    (isArr (getField v "action_items") = false →
      getField (ensureSummaryShape v) "action_items" = .arr []) := by
  rw [ensureSummaryShape_eq]
  constructor
  · intro xs hxs
    show JVal.arr ((asArr (getField v "action_items")).map mapAction) = _
    rw [hxs]
    rfl
  · intro hne
    show JVal.arr ((asArr (getField v "action_items")).map mapAction) = _
    cases h : getField v "action_items" <;> simp_all [isArr, asArr]

/-- C5 (witness): a concrete input with one empty-object action item maps
to the default record, and a non-sequence action_items field yields the
empty sequence. -/
theorem spec_C5_witness :
    getField (ensureSummaryShape (.obj [("action_items", .arr [.obj []])])) "action_items" =
      .arr [.obj [("owner", .str "Unassigned"), ("task", .str ""), ("due", .str "")]] ∧
    getField (ensureSummaryShape (.str "x")) "action_items" = .arr [] :=
  ⟨(spec_C5 (.obj [("action_items", .arr [.obj []])])).1 [.obj []] rfl,
   (spec_C5 (.str "x")).2 rfl⟩

/-- C6: the normalizer is idempotent — re-normalizing a normalized value
yields the identical record. -/
theorem spec_C6 (v : JVal) :
    ensureSummaryShape (ensureSummaryShape v) = ensureSummaryShape v := by
  rw [ensureSummaryShape_eq v]
  show JVal.obj
    [("points", .arr (asArr (getField v "points"))),
     ("decisions", .arr (asArr (getField v "decisions"))),
     ("action_items",
      .arr (((asArr (getField v "action_items")).map mapAction).map mapAction))] = _
  rw [List.map_map, show mapAction ∘ mapAction = mapAction from funext mapAction_idem]

/-! ## Claims about the generate-summary handler -/

/-- C2: for every valid request (truthy transcript and instruction), the
mock path is taken whenever the mock flag is on or no credential is
configured; the LLM path is reached exactly when the flag is off and a
credential is present; and in particular a missing credential yields the
200 mock response rather than a failure. -/
theorem spec_C2 (e : Env) (body : JVal)
    (ht : truthy (getField (jsOr body (.obj [])) "transcript") = true)
    (hi : truthy (getField (jsOr body (.obj [])) "instruction") = true) :
    ((mockFlag e || !hasGroq e) = true →
      genHandler e body =
        .mockResp (mockSummary (jsToStr (getField (jsOr body (.obj [])) "transcript")))) ∧
    (isLLMCall (genHandler e body) = true ↔ (mockFlag e = false ∧ hasGroq e = true)) ∧
    (hasGroq e = false →
      genResponse (genHandler e body) =
        some (200, .obj [("summary",
          mockSummary (jsToStr (getField (jsOr body (.obj [])) "transcript")))])) := by
  simp only [genHandler, ht, hi, Bool.not_true, Bool.or_self, Bool.false_or]
  cases hm : mockFlag e <;> cases hg : hasGroq e <;>
    simp [isLLMCall, genResponse]

/-- C2 (witness): with the flag on and no credential the handler produces
the mock 200 response for a concrete valid request. -/
theorem spec_C2_witness :
    genHandler ⟨some "true", none⟩
        (.obj [("transcript", .str "t"), ("instruction", .str "i")]) =
      .mockResp (mockSummary "t") ∧
    genResponse (genHandler ⟨some "true", none⟩
        (.obj [("transcript", .str "t"), ("instruction", .str "i")])) =
      some (200, .obj [("summary", mockSummary "t")]) :=
  ⟨(spec_C2 ⟨some "true", none⟩
      (.obj [("transcript", .str "t"), ("instruction", .str "i")]) rfl rfl).1 rfl,
   (spec_C2 ⟨some "true", none⟩
      (.obj [("transcript", .str "t"), ("instruction", .str "i")]) rfl rfl).2.2 rfl⟩

/-- C3: a missing or empty transcript or instruction makes the handler fail
with status 400 and the message "Transcript and instruction are required";
neither the mock branch nor the LLM branch is reached. -/
theorem spec_C3 (e : Env) (body : JVal)
    (h : getField (jsOr body (.obj [])) "transcript" = .undefined ∨
         getField (jsOr body (.obj [])) "transcript" = .str "" ∨
         getField (jsOr body (.obj [])) "instruction" = .undefined ∨
         getField (jsOr body (.obj [])) "instruction" = .str "") :
    genHandler e body = .invalid ∧
    genResponse (genHandler e body) =
      some (400, .obj [("error", .str "Transcript and instruction are required")]) ∧
    isMockResp (genHandler e body) = false ∧
    isLLMCall (genHandler e body) = false := by
  have hcond : (!truthy (getField (jsOr body (.obj [])) "transcript") ||
                !truthy (getField (jsOr body (.obj [])) "instruction")) = true := by
    rcases h with h | h | h | h <;> simp [h, truthy]
  have hg : genHandler e body = .invalid := by
    simp [genHandler, hcond]
  exact ⟨hg, by rw [hg]; rfl, by rw [hg]; rfl, by rw [hg]; rfl⟩

/-- C3 (witness): the spec's own example, an empty transcript with a
non-empty instruction, yields the 400 response. -/
theorem spec_C3_witness :
    genHandler ⟨none, none⟩ (.obj [("transcript", .str ""), ("instruction", .str "x")]) = .invalid ∧
    genResponse (genHandler ⟨none, none⟩
        (.obj [("transcript", .str ""), ("instruction", .str "x")])) =
      some (400, .obj [("error", .str "Transcript and instruction are required")]) ∧
    isMockResp (genHandler ⟨none, none⟩
        (.obj [("transcript", .str ""), ("instruction", .str "x")])) = false ∧
    isLLMCall (genHandler ⟨none, none⟩
        (.obj [("transcript", .str ""), ("instruction", .str "x")])) = false :=
  spec_C3 ⟨none, none⟩ _ (Or.inr (Or.inl rfl))

/-- C4: the mock summarizer's points are exactly the transcript split at
newline boundaries or sentence-ending punctuation followed by whitespace,
each fragment trimmed, blanks discarded, and the first `mockN` fragments
kept, with `mockN = 6`, a fixed constant between 4 and 8. -/
theorem spec_C4 (t : String) :
    getField (mockSummary t) "points" =
      .arr (((((splitTranscript t).map jsTrim).filter
        (fun s => !(s == ""))).take mockN).map JVal.str) ∧
    4 ≤ mockN ∧ mockN ≤ 8 :=
  ⟨rfl, by decide, by decide⟩

/-- C8 (counterexample): the claim that every request with non-empty
transcript and instruction strings yields non-empty points fails — the
whitespace-only transcript " " is a non-empty (truthy) string, yet every
fragment trims to blank and is discarded, so the 200 mock response carries
an empty points sequence. -/
theorem spec_C8_cex :
    truthy (.str " ") = true ∧
    genHandler ⟨some "true", none⟩
        (.obj [("transcript", .str " "), ("instruction", .str "x")]) =
      .mockResp (mockSummary " ") ∧
    getField (mockSummary " ") "points" = .arr [] :=
  ⟨rfl, rfl, rfl⟩

/-- C8 (amended): in mock mode the path cannot fail — every request whose
transcript is a non-empty string and whose instruction is truthy gets the
200 response with the deterministic normalized summary; its points are the
first `mockN` trimmed non-blank fragments of the transcript (so they are
non-empty whenever at least one non-blank fragment exists, though not for
whitespace-only transcripts), and decisions and action_items are present. -/
theorem spec_C8 (e : Env) (body : JVal) (t : String)
    (ht : getField (jsOr body (.obj [])) "transcript" = .str t)
    (hne : (t == "") = false)
    (hi : truthy (getField (jsOr body (.obj [])) "instruction") = true)
    (hm : (mockFlag e || !hasGroq e) = true) :
    genHandler e body = .mockResp (mockSummary t) ∧
    genResponse (genHandler e body) = some (200, .obj [("summary", mockSummary t)]) ∧
    getField (mockSummary t) "points" = .arr (((mockLines t).take mockN).map JVal.str) ∧
    getField (mockSummary t) "decisions" = .arr [.str "Proceed with current timeline."] ∧
    shapedSummary (mockSummary t) = true ∧
    ((mockLines t).isEmpty = true ∨
      ((((mockLines t).take mockN).map JVal.str).isEmpty = false)) := by
  have htr : truthy (getField (jsOr body (.obj [])) "transcript") = true := by
    rw [ht]
    simp [truthy, hne]
  have hgen : genHandler e body = .mockResp (mockSummary t) := by
    have htt : truthy (JVal.str t) = true := by simp [truthy, hne]
    simp [genHandler, ht, htt, hi, hm, jsToStr, jsToStrScalar]
  refine ⟨hgen, by rw [hgen]; rfl, rfl, rfl, shapedSummary_ensure _, ?_⟩
  cases hml : mockLines t with
  | nil => exact Or.inl rfl
  | cons a l =>
      right
      show (((a :: l).take 6).map JVal.str).isEmpty = false
      rfl

/-- C8 (witness): the spec's example transcript yields the 200 mock
response with the two sentence fragments as points, a non-empty sequence. -/
theorem spec_C8_witness :
    genResponse (genHandler ⟨some "true", none⟩
        (.obj [("transcript", .str "Line one. Line two."),
               ("instruction", .str "summarize")])) =
      some (200, .obj [("summary", mockSummary "Line one. Line two.")]) ∧
    (((mockLines "Line one. Line two.").take mockN).map JVal.str).isEmpty = false :=
  ⟨(spec_C8 ⟨some "true", none⟩
      (.obj [("transcript", .str "Line one. Line two."),
             ("instruction", .str "summarize")])
      "Line one. Line two." rfl rfl rfl rfl).2.1, rfl⟩

/-! ## Claims about the send-summary handler -/

/-- C7: a request whose recipients sequence is empty fails with status 400
and the message "Recipients array is required", and the mail collaborator
is not invoked (the handler outcome is not a send). -/
theorem spec_C7 (body : JVal) (url : String)
    (h : getField body "recipients" = .arr []) :
    sendHandler body = .invalid ∧
    sendResponse (sendHandler body) url =
      (400, .obj [("error", .str "Recipients array is required")]) ∧
    isSend (sendHandler body) = false := by
  have hs : sendHandler body = .invalid := by
    simp [sendHandler, h, jsOr, truthy, jsLengthTruthy]
  exact ⟨hs, by rw [hs]; rfl, by rw [hs]; rfl⟩

/-- C7 (witness): the spec's example, a well-formed summary with an empty
recipients array, yields the 400 response and no send. -/
theorem spec_C7_witness :
    sendHandler (.obj [("summary", .obj [("points", .arr [.str "A"])]),
                       ("recipients", .arr [])]) = .invalid ∧
    sendResponse (sendHandler (.obj [("summary", .obj [("points", .arr [.str "A"])]),
                                     ("recipients", .arr [])])) "unused" =
      (400, .obj [("error", .str "Recipients array is required")]) ∧
    isSend (sendHandler (.obj [("summary", .obj [("points", .arr [.str "A"])]),
                               ("recipients", .arr [])])) = false :=
  spec_C7 _ "unused" rfl

/-- C10 (implicit): the send-summary handler never rejects because of the
summary field — whenever the recipients value has truthy length, the
outcome is a send whose HTML is rendered from the normalized summary
(absent, null or malformed summaries included), and when the mail
collaborator succeeds the response is 200. -/
theorem spec_C10 (body : JVal) (url : String)
    (h : jsLengthTruthy (jsOr (getField body "recipients") (.arr [])) = true) :
    sendHandler body =
      .send (jsOr (getField body "recipients") (.arr []))
        (renderSummaryHTML (ensureSummaryShape (jsOr (getField body "summary") (.obj [])))) ∧
    sendResponse (sendHandler body) url =
      (200, .obj [("message", .str "Email sent (preview available)"),
                  ("previewUrl", .str url)]) := by
  have hs : sendHandler body =
      .send (jsOr (getField body "recipients") (.arr []))
        (renderSummaryHTML (ensureSummaryShape (jsOr (getField body "summary") (.obj [])))) := by
    simp [sendHandler, h]
  exact ⟨hs, by rw [hs]; rfl⟩

/-- C10 (witness): a request with a null summary and one recipient is
accepted — the summary normalizes to the empty record and the response is
200 with the collaborator's preview locator. -/
theorem spec_C10_witness :
    sendHandler (.obj [("summary", .null), ("recipients", .arr [.str "a@example.com"])]) =
      .send (.arr [.str "a@example.com"])
        (renderSummaryHTML (ensureSummaryShape (.obj []))) ∧
    sendResponse (sendHandler (.obj [("summary", .null),
        ("recipients", .arr [.str "a@example.com"])])) "preview-url" =
      (200, .obj [("message", .str "Email sent (preview available)"),
                  ("previewUrl", .str "preview-url")]) :=
  spec_C10 _ "preview-url" rfl

/-! ## Claims about the frontend edit cycle -/

theorem mkData (s : String) : String.mk s.data = s := by
  cases s
  rfl

theorem splitNLAux_no_nl (p : List Char)
    (h : p.all (fun c => !(c == '\n')) = true) :
    splitNLAux p = [p] := by
  induction p with
  | nil => rfl
  | cons c p ih =>
      simp only [List.all_cons, Bool.and_eq_true] at h
      have hc : ¬ c = '\n' := by simpa using h.1
      conv_lhs => unfold splitNLAux
      rw [if_neg hc, ih h.2]
      rfl

theorem splitNLAux_append (p r : List Char)
    (h : p.all (fun c => !(c == '\n')) = true) :
    splitNLAux (p ++ '\n' :: r) = p :: splitNLAux r := by
  induction p with
  | nil => rfl
  | cons c p ih =>
      simp only [List.all_cons, Bool.and_eq_true] at h
      have hc : ¬ c = '\n' := by simpa using h.1
      show splitNLAux (c :: (p ++ '\n' :: r)) = (c :: p) :: splitNLAux r
      conv_lhs => unfold splitNLAux
      rw [if_neg hc, ih h.2]
      rfl

theorem splitNL_join (pss : List (List Char)) (hne : pss ≠ [])
    (h : ∀ p ∈ pss, p.all (fun c => !(c == '\n')) = true) :
    splitNLAux (joinNLChars pss) = pss := by
  induction pss with
  | nil => exact absurd rfl hne
  | cons p pss ih =>
      cases pss with
      | nil => exact splitNLAux_no_nl p (h p (by simp))
      | cons q pss' =>
          show splitNLAux (p ++ '\n' :: joinNLChars (q :: pss')) = p :: (q :: pss')
          rw [splitNLAux_append p _ (h p (by simp))]
          rw [ih (by simp) (fun x hx => h x (by simp [hx]))]

theorem splitLines_join (ps : List String) (hne : ps ≠ [])
    (h : ps.all (fun p => p.data.all (fun c => !(c == '\n'))) = true) :
    splitLinesJS (joinLinesJS ps) = ps := by
  show (splitNLAux (joinNLChars (ps.map String.data))).map String.mk = ps
  rw [splitNL_join (ps.map String.data) (by simpa using hne) ?hall]
  case hall =>
    intro l hl
    obtain ⟨s, hs, rfl⟩ := List.mem_map.mp hl
    exact List.all_eq_true.mp h s hs
  rw [List.map_map, show String.mk ∘ String.data = id from funext mkData, List.map_id]

/-- C9 (counterexample): a normalized summary may hold a point containing a
newline; joining and re-splitting breaks such a point into two entries, so
the round-tripped sequence is not the original modulo trimming and blank
removal. -/
theorem spec_C9_cex :
    editCycle ["a\nb"] = ["a", "b"] ∧
    modTrimBlank ["a\nb"] = ["a\nb"] ∧
    ((["a", "b"] : List String) == ["a\nb"]) = false :=
  ⟨rfl, rfl, rfl⟩

/-- C9 (amended): for every points sequence whose entries contain no
newline character, joining the points with newline separators and
re-splitting at newlines, trimming each line and dropping blanks, yields
exactly the original sequence with each entry trimmed and blank entries
removed. -/
theorem spec_C9 (ps : List String)
    (h : ps.all (fun p => p.data.all (fun c => !(c == '\n'))) = true) :
    editCycle ps = modTrimBlank ps := by
  cases ps with
  | nil => rfl
  | cons q qs =>
      show editPoints (joinLinesJS (q :: qs)) = modTrimBlank (q :: qs)
      unfold editPoints
      rw [splitLines_join (q :: qs) (by simp) h]
      rfl

/-- C9 (witness): a concrete newline-free points sequence with surrounding
whitespace and a blank entry round-trips to its trimmed, blank-free form. -/
theorem spec_C9_witness :
    editCycle ["  A one ", "", "B two"] = modTrimBlank ["  A one ", "", "B two"] ∧
    modTrimBlank ["  A one ", "", "B two"] = ["A one", "B two"] :=
  ⟨spec_C9 ["  A one ", "", "B two"] rfl, rfl⟩

end MeetingSummarizer
